import Mathlib

/-!
# Verification of the AWS carbon-emissions tracker (scripts/tracker.py)

Shallow embedding of the arithmetic and reporting logic of the tracker over `ℚ`.
Python floats are modelled as exact rationals; `datetime` values are modelled
as rational timestamps in seconds, with the current time passed explicitly.
Python dicts over string keys are modelled as association lists, observed only
through `dict.get`-style lookup, matching how the source uses them. The AWS
API calls (boto3) are modelled by passing their responses as explicit inputs,
and `print` output is modelled as a list of report events.
-/

namespace Tracker

/-- A Python dict with string keys and rational values, observed through
`dict.get`. Represented as an association list searched front-to-back. -/
abbrev PowerMap := List (String × ℚ)

/-- `power_map.get(key, default_watts)` on a `PowerMap`. -/
def dictGet (m : PowerMap) (k : String) (default : ℚ) : ℚ :=
  (m.lookup k).getD default

/-- Embeds `calculate_uptime_hours`: `(now - launch_time).total_seconds() / 3600`,
with both datetimes given as rational seconds since the epoch and the current
time `now` passed explicitly. -/
def calculate_uptime_hours (now launch_time : ℚ) : ℚ :=
  (now - launch_time) / 3600

/-- Embeds `calculate_emissions`: `energy_kwh * emission_factor`, with the
default `emission_factor = 0.392`. -/
def calculate_emissions (energy_kwh : ℚ) (emission_factor : ℚ := 0.392) : ℚ :=
  energy_kwh * emission_factor

/-- One record of the EC2 power-table JSON array: fields `instanceType` and
`watts`. -/
structure Ec2Entry where
  instanceType : String
  watts : ℚ
deriving DecidableEq

/-- One record of the RDS power-table JSON array: fields `instanceClass` and
`watts`. -/
structure RdsEntry where
  instanceClass : String
  watts : ℚ
deriving DecidableEq

/-- Embeds `load_power_map_ec2` applied to an already-parsed JSON array: the
dict comprehension keying each entry by `instanceType` with value `watts`.
A Python dict gives the last duplicate key precedence, so the resulting dict
is modelled by first-match lookup over the reversed entry list. -/
def load_power_map_ec2 (data : List Ec2Entry) : PowerMap :=
  (data.map fun entry => (entry.instanceType, entry.watts)).reverse

/-- Embeds `load_power_map_rds` applied to an already-parsed JSON array: the
dict comprehension keying each entry by `instanceClass` with value `watts`,
with the same last-duplicate-wins dict semantics. -/
def load_power_map_rds (data : List RdsEntry) : PowerMap :=
  (data.map fun entry => (entry.instanceClass, entry.watts)).reverse

/-- Embeds `estimate_energy_kwh`:
`watts = power_map.get(instance_type, default_watts)` then
`(watts * uptime_hours) / 1000`, with `default_watts = 20.0`. -/
def estimate_energy_kwh (instance_type : String) (uptime_hours : ℚ)
    (power_map : PowerMap) (default_watts : ℚ := 20.0) : ℚ :=
  let watts := dictGet power_map instance_type default_watts
  (watts * uptime_hours) / 1000

/-- Embeds `estimate_energy_kwh_rds`:
`watts = power_map.get(instance_class, default_watts)` then
`(watts * uptime_hours) / 1000`, with `default_watts = 25.0`. -/
def estimate_energy_kwh_rds (instance_class : String) (uptime_hours : ℚ)
    (power_map : PowerMap) (default_watts : ℚ := 25.0) : ℚ :=
  let watts := dictGet power_map instance_class default_watts
  (watts * uptime_hours) / 1000

/-- Embeds `estimate_lambda_emissions`:
`memory_gb = memory_mb / 1024`,
`energy_kwh = invocations * duration_ms * memory_gb * 0.0000005`,
`co2e = energy_kwh * emission_factor`, returning the pair. -/
def estimate_lambda_emissions (invocations duration_ms memory_mb : ℚ)
    (emission_factor : ℚ := 0.392) : ℚ × ℚ :=
  let memory_gb := memory_mb / 1024
  let energy_kwh := invocations * duration_ms * memory_gb * 0.0000005
  let co2e := energy_kwh * emission_factor
  (energy_kwh, co2e)

/-- A file error raised while opening or parsing a power-table JSON file
(Python `OSError` / `json.JSONDecodeError`). -/
structure FileError where
  msg : String
deriving DecidableEq

/-- The fields of an EC2 instance descriptor that `main` reads:
`InstanceId`, `InstanceType`, `LaunchTime` and `Placement.AvailabilityZone`. -/
structure Ec2Instance where
  instanceId : String
  instanceType : String
  launchTime : ℚ
  availabilityZone : String
deriving DecidableEq

/-- The fields of an RDS descriptor that `main` reads: `DBInstanceIdentifier`,
`DBInstanceClass`, `InstanceCreateTime` and `AvailabilityZone`. -/
structure RdsInstance where
  dbInstanceIdentifier : String
  dbInstanceClass : String
  instanceCreateTime : ℚ
  availabilityZone : String
deriving DecidableEq

/-- The fields of a Lambda function descriptor that `main` reads
(`FunctionName`, `MemorySize`), together with the CloudWatch `Sum` datapoint
lists that `get_lambda_metrics` would retrieve for it. -/
structure LambdaFunction where
  functionName : String
  memorySize : ℚ
  invocationDatapoints : List ℚ
  durationDatapoints : List ℚ
deriving DecidableEq

/-- One printed line or block of the report, print output modelled as data. -/
inductive ReportLine where
  | ec2Header
  | noEc2Notice
  | ec2Instance (instanceId instanceType region : String)
      (uptimeHours energyKwh co2eKg : ℚ)
  | rdsHeader
  | noRdsNotice
  | rdsInstance (dbId dbClass region : String)
      (uptimeHours energyKwh co2eKg : ℚ)
  | lambdaHeader
  | noLambdaNotice
  | lambdaReport (functionName : String)
      (memoryMb invocations durationMs energyKwh co2eKg : ℚ)
deriving DecidableEq

/-- Embeds `get_ec2` applied to the `describe_instances` response: if the
`Reservations` list is falsy (empty) it prints a notice and returns an empty
list, otherwise it flattens the per-reservation `Instances` lists. -/
def get_ec2 (reservations : List (List Ec2Instance)) :
    List ReportLine × List Ec2Instance :=
  if reservations.isEmpty then ([ReportLine.noEc2Notice], [])
  else ([], reservations.flatten)

/-- Embeds `get_rds` applied to the `describe_db_instances` response: if the
`DBInstances` list is falsy (empty) it prints a notice and returns an empty
list, otherwise it returns the list. -/
def get_rds (dbInstances : List RdsInstance) :
    List ReportLine × List RdsInstance :=
  if dbInstances.isEmpty then ([ReportLine.noRdsNotice], [])
  else ([], dbInstances)

/-- Embeds `get_lambda_functions` applied to the paginator output: the
concatenation of the `Functions` list of every page. -/
def get_lambda_functions (pages : List (List LambdaFunction)) :
    List LambdaFunction :=
  pages.flatten

/-- Embeds `get_lambda_metrics` applied to the two CloudWatch responses:
`Datapoints[0].Sum if Datapoints else 0` for each metric. -/
def get_lambda_metrics (invocationDatapoints durationDatapoints : List ℚ) :
    ℚ × ℚ :=
  (invocationDatapoints.headD 0, durationDatapoints.headD 0)

/-- Python `az[:-1]`: the availability zone with its last character dropped. -/
def regionOfAz (az : String) : String :=
  az.dropRight 1

/-- Embeds `main`. The boto3 responses and the results of opening the two
power-table files are passed as explicit inputs; a load failure is an
`Except.error` that aborts the run where the Python exception would propagate.
The result is the list of report lines printed before termination, paired with
the file error if one aborted the run. -/
def main (now : ℚ)
    (ec2Response : List (List Ec2Instance))
    (ec2PowerFile : Except FileError (List Ec2Entry))
    (rdsResponse : List RdsInstance)
    (rdsPowerFile : Except FileError (List RdsEntry))
    (lambdaPages : List (List LambdaFunction)) :
    List ReportLine × Option FileError :=
  let lines := [ReportLine.ec2Header]
  let fetched := get_ec2 ec2Response
  let lines := lines ++ fetched.1
  match ec2PowerFile with
  | Except.error err => (lines, some err)
  | Except.ok ec2Data =>
    let power_map_ec2 := load_power_map_ec2 ec2Data
    let lines := lines ++ fetched.2.map (fun inst =>
      let uptime_hours := calculate_uptime_hours now inst.launchTime
      let energy_kwh := estimate_energy_kwh inst.instanceType uptime_hours power_map_ec2
      let co2e := calculate_emissions energy_kwh
      ReportLine.ec2Instance inst.instanceId inst.instanceType
        (regionOfAz inst.availabilityZone) uptime_hours energy_kwh co2e)
    let lines := lines ++ [ReportLine.rdsHeader]
    let fetchedRds := get_rds rdsResponse
    let lines := lines ++ fetchedRds.1
    match rdsPowerFile with
    | Except.error err => (lines, some err)
    | Except.ok rdsData =>
      let power_map_rds := load_power_map_rds rdsData
      let lines := lines ++ fetchedRds.2.map (fun db =>
        let uptime_hours := calculate_uptime_hours now db.instanceCreateTime
        let energy_kwh := estimate_energy_kwh_rds db.dbInstanceClass uptime_hours power_map_rds
        let co2e := calculate_emissions energy_kwh
        ReportLine.rdsInstance db.dbInstanceIdentifier db.dbInstanceClass
          (regionOfAz db.availabilityZone) uptime_hours energy_kwh co2e)
      let lines := lines ++ [ReportLine.lambdaHeader]
      let lambda_functions := get_lambda_functions lambdaPages
      if lambda_functions.isEmpty then
        (lines ++ [ReportLine.noLambdaNotice], none)
      else
        (lines ++ lambda_functions.map (fun func =>
          let metrics := get_lambda_metrics func.invocationDatapoints func.durationDatapoints
          let result := estimate_lambda_emissions metrics.1 metrics.2 func.memorySize
          ReportLine.lambdaReport func.functionName func.memorySize
            metrics.1 metrics.2 result.1 result.2), none)


/-- The EC2 per-instance report block printed by the loop of `main`: uptime,
energy and emissions for one instance, as one output event. Names the
sub-expression of `main` so theorems about the output can refer to it. -/
def ec2_report_block (now : ℚ) (power_map_ec2 : PowerMap)
    (inst : Ec2Instance) : ReportLine :=
  let uptime_hours := calculate_uptime_hours now inst.launchTime
  let energy_kwh := estimate_energy_kwh inst.instanceType uptime_hours power_map_ec2
  let co2e := calculate_emissions energy_kwh
  ReportLine.ec2Instance inst.instanceId inst.instanceType
    (regionOfAz inst.availabilityZone) uptime_hours energy_kwh co2e

/-- If the keys of an association list are distinct, lookup of a key returns
the value of the unique pair holding it. -/
theorem lookup_eq_of_mem_nodup {β : Type} :
    ∀ (l : List (String × β)) (k : String) (w : β),
      (l.map Prod.fst).Nodup → (k, w) ∈ l → l.lookup k = some w := by
  intro l
  induction l with
  | nil => intro k w _ hmem; cases hmem
  | cons p t ih =>
    intro k w hnd hmem
    obtain ⟨k2, v2⟩ := p
    rw [List.map_cons, List.nodup_cons] at hnd
    rcases List.mem_cons.mp hmem with h | h
    · cases h
      simp [List.lookup]
    · have hk : (k == k2) = false := by
        apply beq_eq_false_iff_ne.mpr
        intro hkk
        subst hkk
        exact hnd.1 (List.mem_map.mpr ⟨(k, w), h, rfl⟩)
      simpa [List.lookup, hk] using ih k w hnd.2 h

/-- Lookup skips a prefix none of whose keys is the requested one. -/
theorem lookup_append_of_keys_ne {β : Type} :
    ∀ (xs ys : List (String × β)) (k : String),
      (∀ p ∈ xs, p.1 ≠ k) → (xs ++ ys).lookup k = ys.lookup k := by
  intro xs
  induction xs with
  | nil => intro ys k _; rfl
  | cons p t ih =>
    intro ys k hne
    obtain ⟨k2, v2⟩ := p
    have hk : (k == k2) = false := by
      apply beq_eq_false_iff_ne.mpr
      intro hkk
      exact hne (k2, v2) (List.mem_cons_self _ _) hkk.symm
    simpa [List.lookup, hk] using ih ys k (fun p hp => hne p (List.mem_cons_of_mem _ hp))

/-- A successful lookup returns a pair of the list. -/
theorem mem_of_lookup_eq_some {β : Type} :
    ∀ (l : List (String × β)) (k : String) (w : β),
      l.lookup k = some w → (k, w) ∈ l := by
  intro l
  induction l with
  | nil => intro k w h; cases h
  | cons p t ih =>
    intro k w h
    obtain ⟨k2, v2⟩ := p
    by_cases hk : k = k2
    · subst hk
      simp [List.lookup] at h
      subst h
      exact List.mem_cons_self _ _
    · have hk2 : (k == k2) = false := beq_eq_false_iff_ne.mpr hk
      rw [List.lookup, hk2] at h
      exact List.mem_cons_of_mem _ (ih k w h)

/-- A `dict.get` over a map of non-negative wattages with a non-negative
default is non-negative. -/
theorem dictGet_nonneg (m : PowerMap) (k : String) (d : ℚ)
    (hm : ∀ p ∈ m, 0 ≤ p.2) (hd : 0 ≤ d) : 0 ≤ dictGet m k d := by
  unfold dictGet
  cases h : m.lookup k with
  | none => simpa using hd
  | some w => simpa using hm (k, w) (mem_of_lookup_eq_some m k w h)

/-- C1: for every instance-type (or instance-class) string `t`, uptime `h`,
power map `m` holding `t` with wattage `w`, and any default wattage, the EC2
and RDS energy estimators return exactly `w * h / 1000` kilowatt-hours; with
the map sending t2.micro to 5 W, type t2.micro and uptime 10 h the EC2
estimator returns 0.05 kWh and the emissions converter at the default factor
returns 0.0196 kg. -/
theorem C1_energy_formula (t : String) (h : ℚ) (m : PowerMap) (w d1 d2 : ℚ)
    (hm : m.lookup t = some w) :
    estimate_energy_kwh t h m d1 = w * h / 1000 ∧
    estimate_energy_kwh_rds t h m d2 = w * h / 1000 ∧
    estimate_energy_kwh "t2.micro" 10 [("t2.micro", 5)] = 0.05 ∧
    calculate_emissions 0.05 = 0.0196 := by
  refine ⟨?_, ?_, ?_, ?_⟩ <;>
    norm_num [estimate_energy_kwh, estimate_energy_kwh_rds, dictGet, hm,
      calculate_emissions, List.lookup]

/-- C1 witness: the main theorem instantiated at a concrete map holding the
queried key. -/
theorem C1_energy_formula_witness :
    estimate_energy_kwh "a" 2 [("a", 7)] 20 = 7 * 2 / 1000 ∧
    estimate_energy_kwh_rds "a" 2 [("a", 7)] 25 = 7 * 2 / 1000 ∧
    estimate_energy_kwh "t2.micro" 10 [("t2.micro", 5)] = 0.05 ∧
    calculate_emissions 0.05 = 0.0196 :=
  C1_energy_formula "a" 2 [("a", 7)] 7 20 25 (by simp [List.lookup])

/-- C2: for every invocation count, total duration in milliseconds, memory
size in MB and emission factor, the Lambda estimator returns an energy
component exactly equal to the constant-factor formula
`invocations * duration_ms * (memory_mb / 1024) * 0.0000005`; at
invocations 100, duration 500 ms and memory 128 MB it yields energy 0.003125
kWh and co2e 0.003125 * 0.392 = 0.0012250 kg. -/
theorem C2_lambda_formula (i d m f : ℚ) :
    (estimate_lambda_emissions i d m f).1 = i * d * (m / 1024) * 0.0000005 ∧
    estimate_lambda_emissions 100 500 128 = (0.003125, 0.0012250) := by
  constructor
  · rfl
  · norm_num [estimate_lambda_emissions]

/-- C3: the emissions conversion is the single formula
`co2e = energy * emission_factor`, shared by all three resource types: the
co2e component of the Lambda estimator equals the converter applied to its
energy component with the same factor; the factor is a parameter defaulting
to 0.392; and for non-negative energy and factor, co2e is zero exactly when
the energy or the factor is zero. -/
theorem C3_single_conversion :
    (∀ e f : ℚ, calculate_emissions e f = e * f) ∧
    (∀ e : ℚ, calculate_emissions e = e * 0.392) ∧
    (∀ i d m f : ℚ, (estimate_lambda_emissions i d m f).2 =
      calculate_emissions (estimate_lambda_emissions i d m f).1 f) ∧
    (∀ e f : ℚ, 0 ≤ e → 0 ≤ f →
      (calculate_emissions e f = 0 ↔ e = 0 ∨ f = 0)) := by
  refine ⟨fun e f => rfl, fun e => rfl, fun i d m f => rfl, fun e f _ _ => ?_⟩
  simp [calculate_emissions, mul_eq_zero]

/-- C3 witness: the conversion properties instantiated at concrete values. -/
theorem C3_single_conversion_witness :
    calculate_emissions 2 3 = 2 * 3 ∧
    calculate_emissions 2 = 2 * 0.392 ∧
    (estimate_lambda_emissions 1 2 3 4).2 =
      calculate_emissions (estimate_lambda_emissions 1 2 3 4).1 4 ∧
    (calculate_emissions 2 3 = 0 ↔ (2 : ℚ) = 0 ∨ (3 : ℚ) = 0) :=
  ⟨C3_single_conversion.1 2 3, C3_single_conversion.2.1 2,
    C3_single_conversion.2.2.1 1 2 3 4,
    C3_single_conversion.2.2.2 2 3 (by norm_num) (by norm_num)⟩

/-- C10: the EC2 and RDS energy estimators compute the same function whenever
the default wattage is supplied explicitly, and with the default argument
omitted they equal themselves at defaults 20.0 and 25.0 respectively. -/
theorem C10_estimators_same_function :
    (∀ (t : String) (h : ℚ) (m : PowerMap) (d : ℚ),
      estimate_energy_kwh t h m d = estimate_energy_kwh_rds t h m d) ∧
    (∀ (t : String) (h : ℚ) (m : PowerMap),
      estimate_energy_kwh t h m = estimate_energy_kwh t h m 20.0 ∧
      estimate_energy_kwh_rds t h m = estimate_energy_kwh_rds t h m 25.0) :=
  ⟨fun _ _ _ _ => rfl, fun _ _ _ => ⟨rfl, rfl⟩⟩

/-- C4: for every power map `m` and key `t` absent from `m`, both estimators
fall back to the (explicit or default) wattage instead of failing: the EC2
estimator uses default 20 W, the RDS estimator 25 W; with an empty RDS power
map, class db.unknown and uptime 4 h, the RDS estimator returns 0.1 kWh and
the converter returns 0.0392 kg. -/
theorem C4_default_wattage (t : String) (h : ℚ) (m : PowerMap) (d1 d2 : ℚ)
    (hm : m.lookup t = none) :
    estimate_energy_kwh t h m d1 = d1 * h / 1000 ∧
    estimate_energy_kwh_rds t h m d2 = d2 * h / 1000 ∧
    estimate_energy_kwh t h m = 20 * h / 1000 ∧
    estimate_energy_kwh_rds t h m = 25 * h / 1000 ∧
    estimate_energy_kwh_rds "db.unknown" 4 [] = 0.1 ∧
    calculate_emissions 0.1 = 0.0392 := by
  refine ⟨?_, ?_, ?_, ?_, ?_, ?_⟩ <;>
    norm_num [estimate_energy_kwh, estimate_energy_kwh_rds, dictGet, hm,
      calculate_emissions, List.lookup]

/-- C4 witness: the main theorem instantiated at an empty map. -/
theorem C4_default_wattage_witness :
    estimate_energy_kwh "x" 3 [] 11 = 11 * 3 / 1000 ∧
    estimate_energy_kwh_rds "x" 3 [] 13 = 13 * 3 / 1000 ∧
    estimate_energy_kwh "x" 3 [] = 20 * 3 / 1000 ∧
    estimate_energy_kwh_rds "x" 3 [] = 25 * 3 / 1000 ∧
    estimate_energy_kwh_rds "db.unknown" 4 [] = 0.1 ∧
    calculate_emissions 0.1 = 0.0392 :=
  C4_default_wattage "x" 3 [] 11 13 rfl

/-- C5: round-trip through the power-table loaders: for a well-formed table
(distinct keys), loading and then querying any key present returns exactly
the wattage stored for that key, for both the EC2 and the RDS loader. -/
theorem C5_load_roundtrip (data : List Ec2Entry) (rdata : List RdsEntry)
    (e : Ec2Entry) (r : RdsEntry)
    (hnd : (data.map Ec2Entry.instanceType).Nodup) (he : e ∈ data)
    (hnd2 : (rdata.map RdsEntry.instanceClass).Nodup) (hr : r ∈ rdata) :
    (load_power_map_ec2 data).lookup e.instanceType = some e.watts ∧
    (load_power_map_rds rdata).lookup r.instanceClass = some r.watts := by
  constructor
  · apply lookup_eq_of_mem_nodup
    · rw [load_power_map_ec2, List.map_reverse, List.nodup_reverse,
        List.map_map]
      exact hnd
    · rw [load_power_map_ec2, List.mem_reverse]
      exact List.mem_map.mpr ⟨e, he, rfl⟩
  · apply lookup_eq_of_mem_nodup
    · rw [load_power_map_rds, List.map_reverse, List.nodup_reverse,
        List.map_map]
      exact hnd2
    · rw [load_power_map_rds, List.mem_reverse]
      exact List.mem_map.mpr ⟨r, hr, rfl⟩

/-- C5 witness: round-trip on concrete two-entry tables. -/
theorem C5_load_roundtrip_witness :
    (load_power_map_ec2 [⟨"t2.micro", 5⟩, ⟨"m5.large", 40⟩]).lookup
      (Ec2Entry.instanceType ⟨"m5.large", 40⟩) =
      some (Ec2Entry.watts ⟨"m5.large", 40⟩) ∧
    (load_power_map_rds [⟨"db.t3.micro", 8⟩]).lookup
      (RdsEntry.instanceClass ⟨"db.t3.micro", 8⟩) =
      some (RdsEntry.watts ⟨"db.t3.micro", 8⟩) :=
  C5_load_roundtrip [⟨"t2.micro", 5⟩, ⟨"m5.large", 40⟩] [⟨"db.t3.micro", 8⟩]
    ⟨"m5.large", 40⟩ ⟨"db.t3.micro", 8⟩
    (by simp) (by simp) (by simp) (by simp)

/-- C6: for non-negative inputs (map wattages, default wattage, hours,
invocations, duration, memory, factor, energy), every energy value produced
by the EC2, RDS and Lambda estimators and every emissions value produced by
the converter is non-negative. -/
theorem C6_nonneg (t : String) (h d f i dur mem e : ℚ) (m : PowerMap)
    (hm : ∀ p ∈ m, 0 ≤ p.2) (hh : 0 ≤ h) (hd : 0 ≤ d) (hf : 0 ≤ f)
    (hi : 0 ≤ i) (hdur : 0 ≤ dur) (hmem : 0 ≤ mem) (he : 0 ≤ e) :
    0 ≤ estimate_energy_kwh t h m d ∧
    0 ≤ estimate_energy_kwh_rds t h m d ∧
    0 ≤ (estimate_lambda_emissions i dur mem f).1 ∧
    0 ≤ (estimate_lambda_emissions i dur mem f).2 ∧
    0 ≤ calculate_emissions e f := by
  have hw := dictGet_nonneg m t d hm hd
  have henergy : 0 ≤ i * dur * (mem / 1024) * 0.0000005 := by positivity
  refine ⟨?_, ?_, henergy, ?_, mul_nonneg he hf⟩
  · exact div_nonneg (mul_nonneg hw hh) (by norm_num)
  · exact div_nonneg (mul_nonneg hw hh) (by norm_num)
  · exact mul_nonneg henergy hf

/-- C6 witness: non-negativity at concrete non-negative inputs. -/
theorem C6_nonneg_witness :
    0 ≤ estimate_energy_kwh "a" 2 [("a", 7)] 20 ∧
    0 ≤ estimate_energy_kwh_rds "a" 2 [("a", 7)] 20 ∧
    0 ≤ (estimate_lambda_emissions 1 2 3 4).1 ∧
    0 ≤ (estimate_lambda_emissions 1 2 3 4).2 ∧
    0 ≤ calculate_emissions 5 4 :=
  C6_nonneg "a" 2 20 4 1 2 3 5 [("a", 7)]
    (by simp) (by norm_num) (by norm_num) (by norm_num)
    (by norm_num) (by norm_num) (by norm_num) (by norm_num)

/-- C8: negative uptime is not guarded against: when the launch time is later
than the current time the computed uptime is negative, and whenever the
effective wattage is positive the EC2 and RDS estimators propagate it as a
negative energy value, not clamped to zero. -/
theorem C8_negative_uptime (now launch : ℚ) (t : String) (m : PowerMap)
    (d : ℚ) (hlt : now < launch) (hw : 0 < dictGet m t d) :
    calculate_uptime_hours now launch < 0 ∧
    estimate_energy_kwh t (calculate_uptime_hours now launch) m d < 0 ∧
    estimate_energy_kwh_rds t (calculate_uptime_hours now launch) m d < 0 := by
  have hu : calculate_uptime_hours now launch < 0 := by
    rw [calculate_uptime_hours]
    apply div_neg_of_neg_of_pos _ (by norm_num)
    linarith
  refine ⟨hu, ?_, ?_⟩
  · show dictGet m t d * calculate_uptime_hours now launch / 1000 < 0
    exact div_neg_of_neg_of_pos (mul_neg_of_pos_of_neg hw hu) (by norm_num)
  · show dictGet m t d * calculate_uptime_hours now launch / 1000 < 0
    exact div_neg_of_neg_of_pos (mul_neg_of_pos_of_neg hw hu) (by norm_num)

/-- C8 witness: launched one hour in the future with an empty power map and
positive default wattage. -/
theorem C8_negative_uptime_witness :
    calculate_uptime_hours 0 3600 < 0 ∧
    estimate_energy_kwh "x" (calculate_uptime_hours 0 3600) [] 20 < 0 ∧
    estimate_energy_kwh_rds "x" (calculate_uptime_hours 0 3600) [] 20 < 0 :=
  C8_negative_uptime 0 3600 "x" [] 20 (by norm_num)
    (by norm_num [dictGet, List.lookup])

/-- C9: duplicate keys in a power-table array resolve as last write wins: the
loaded map sends a key to the wattage of the last record holding it, for both
the EC2 and the RDS loader. -/
theorem C9_last_write_wins (l1 l2 : List Ec2Entry) (e : Ec2Entry)
    (r1 r2 : List RdsEntry) (r : RdsEntry)
    (h2 : ∀ e2 ∈ l2, e2.instanceType ≠ e.instanceType)
    (hr2 : ∀ r2e ∈ r2, r2e.instanceClass ≠ r.instanceClass) :
    (load_power_map_ec2 (l1 ++ e :: l2)).lookup e.instanceType
      = some e.watts ∧
    (load_power_map_rds (r1 ++ r :: r2)).lookup r.instanceClass
      = some r.watts := by
  constructor
  · rw [load_power_map_ec2, List.map_append, List.map_cons,
      List.reverse_append, List.reverse_cons, List.append_assoc]
    rw [lookup_append_of_keys_ne]
    · simp [List.lookup]
    · intro p hp
      rw [List.mem_reverse] at hp
      obtain ⟨e2, he2, rfl⟩ := List.mem_map.mp hp
      exact h2 e2 he2
  · rw [load_power_map_rds, List.map_append, List.map_cons,
      List.reverse_append, List.reverse_cons, List.append_assoc]
    rw [lookup_append_of_keys_ne]
    · simp [List.lookup]
    · intro p hp
      rw [List.mem_reverse] at hp
      obtain ⟨r2e, hr2e, rfl⟩ := List.mem_map.mp hp
      exact hr2 r2e hr2e

/-- C9 witness: a table repeating a key twice maps it to the second wattage. -/
theorem C9_last_write_wins_witness :
    (load_power_map_ec2 ([⟨"a", 1⟩] ++ ⟨"a", 2⟩ :: [])).lookup
      (Ec2Entry.instanceType ⟨"a", 2⟩) = some (Ec2Entry.watts ⟨"a", 2⟩) ∧
    (load_power_map_rds ([⟨"b", 3⟩] ++ ⟨"b", 4⟩ :: [])).lookup
      (RdsEntry.instanceClass ⟨"b", 4⟩) = some (RdsEntry.watts ⟨"b", 4⟩) :=
  C9_last_write_wins [⟨"a", 1⟩] [] ⟨"a", 2⟩ [⟨"b", 3⟩] [] ⟨"b", 4⟩
    (by simp) (by simp)

/-- C7 counterexample: with a missing EC2 power table, the run does fail with
the file error, but the EC2 section header and the no-instances notice are
already part of the output that precedes the load failure, so reporting
output does precede it. -/
theorem C7_output_precedes_failure :
    main 0 [] (Except.error ⟨"ec2_power_data.json missing"⟩) []
      (Except.ok []) [] =
      ([ReportLine.ec2Header, ReportLine.noEc2Notice],
        some ⟨"ec2_power_data.json missing"⟩) := by
  rfl

/-- C7 (amended): a power-table load failure is fatal: the run stops at the
load with the file error and prints nothing further, so no report block of
the resource type whose table failed and no later section output appears;
output already printed before the load precedes the failure: the section
header and possible empty-enumeration notice, and, when the RDS table is the
one that fails, also the EC2 per-instance report blocks. -/
theorem C7_load_failure_aborts (now : ℚ)
    (ec2Response : List (List Ec2Instance)) (err : FileError)
    (rdsResponse : List RdsInstance)
    (rdsPowerFile : Except FileError (List RdsEntry))
    (lambdaPages : List (List LambdaFunction)) (ec2Data : List Ec2Entry) :
    main now ec2Response (Except.error err) rdsResponse rdsPowerFile
        lambdaPages =
      ([ReportLine.ec2Header] ++
        (if ec2Response.isEmpty then [ReportLine.noEc2Notice] else []),
        some err) ∧
    main now ec2Response (Except.ok ec2Data) rdsResponse (Except.error err)
        lambdaPages =
      ([ReportLine.ec2Header] ++
        (if ec2Response.isEmpty then [ReportLine.noEc2Notice] else []) ++
        (get_ec2 ec2Response).2.map
          (ec2_report_block now (load_power_map_ec2 ec2Data)) ++
        [ReportLine.rdsHeader] ++
        (if rdsResponse.isEmpty then [ReportLine.noRdsNotice] else []),
        some err) := by
  constructor
  · cases h : ec2Response.isEmpty <;> simp [main, get_ec2, h]
  · cases h : ec2Response.isEmpty <;> cases h2 : rdsResponse.isEmpty <;>
      simp [main, get_ec2, get_rds, ec2_report_block, h, h2] <;> rfl

end Tracker
